import Mathlib

/-!
Shallow embedding of `src/cpanel_mcp/server.py` (cPanel MCP email bridge):
the connection configuration builder, the API bridge construction, the
generic UAPI call, the email splitting helper, and the nine tool
operations, together with proofs about them.
-/

namespace Cpanel

/-- Python `str.split(sep)` for a single-character separator: splits the
character list at every occurrence of `sep`; the result is always
non-empty, and empty segments are kept (`"a@@b"` gives `["a","","b"]`,
`""` gives `[""]`). Models `email.split("@")` at server.py lines 121-122. -/
def pySplit (sep : Char) : List Char → List (List Char)
  | [] => [[]]
  | x :: xs =>
    match pySplit sep xs with
    | [] => [[x]]
    | r :: rs => if x = sep then [] :: r :: rs else (x :: r) :: rs

/-- `split_email` (server.py lines 118-124): Python computes
`email.split("@")[0]` and `email.split("@")[1]`; indexing `[1]` raises
`IndexError` when the split has a single segment (no `@` in the input).
`none` models that uncaught `IndexError`. -/
def split_email (email : String) : Option (String × String) :=
  let parts := pySplit '@' email.data
  match parts.get? 0, parts.get? 1 with
  | some u, some d => some (String.mk u, String.mk d)
  | _, _ => none

/-- A digit run as accepted by Python `int(str)`: non-empty decimal digits,
with single underscores allowed only between digits. -/
def validDigitRun : List Char → Bool
  | [] => false
  | [c] => c.isDigit
  | c :: '_' :: rest => c.isDigit && validDigitRun rest
  | c :: c2 :: rest => c.isDigit && validDigitRun (c2 :: rest)

/-- Numeric value of a digit run, ignoring underscore separators. -/
def digitRunVal (l : List Char) : Nat :=
  (l.filter (fun c => c != '_')).foldl (fun a c => 10 * a + (c.toNat - 48)) 0

/-- Leading and trailing whitespace removed, as Python `int(str)` allows. -/
def stripWs (l : List Char) : List Char :=
  ((l.dropWhile Char.isWhitespace).reverse.dropWhile Char.isWhitespace).reverse

/-- Python `int(str)` (base 10): optional surrounding whitespace, optional
sign, then a digit run; `none` models the `ValueError` raised otherwise.
Models the `int(port_)` call at server.py line 64. -/
def pyInt (s : String) : Option Int :=
  match stripWs s.data with
  | '+' :: rest =>
      if validDigitRun rest then some (Int.ofNat (digitRunVal rest)) else none
  | '-' :: rest =>
      if validDigitRun rest then some (-(Int.ofNat (digitRunVal rest))) else none
  | rest =>
      if validDigitRun rest then some (Int.ofNat (digitRunVal rest)) else none

/-- `CpanelConfig` (server.py lines 13-20): a pydantic model whose fields
`hostname`, `username`, `api_token` are plain `str` (any string, empty
included, validates), with defaults `port = 2083` and `ssl = True`. -/
structure CpanelConfig where
  hostname : String
  username : String
  api_token : String
  port : Int := 2083
  ssl : Bool := true
deriving DecidableEq, Repr

/-- The process environment slice read by `_build_config`: the values of
`USERNAME`, `HOSTNAME`, `CPANEL_API_TOKEN`, `PORT`, `SSL` (`none` when the
variable is unset; environment values are always strings). -/
structure Env where
  username : Option String
  hostname : Option String
  cpanel_api_token : Option String
  port : Option String
  ssl : Option String
deriving DecidableEq, Repr

/-- Result of `_build_config`: either a config, or the `KeyError` that
`os.environ[key]` raises for the first missing required variable.
The `RuntimeError` branch at server.py lines 73-79 is unreachable in this
model because every value placed in `configs` already has its declared
pydantic type (`str` values from the environment, `int` port, `bool` ssl),
so `CpanelConfig(**configs)` never raises `ValidationError`. -/
inductive BuildResult where
  | ok (config : CpanelConfig)
  | keyError (key : String)
deriving DecidableEq, Repr

/-- `_build_config` (server.py lines 47-79): reads `USERNAME`, `HOSTNAME`,
`CPANEL_API_TOKEN` with `os.environ[...]` in that order (raising `KeyError`
at the first missing one), optionally parses `PORT` with `int()` inside
`contextlib.suppress(ValueError, TypeError)` (a failed parse leaves the
default 2083), and treats the `SSL` string as true iff its lowercase form
is one of `"true"`, `"1"`, `"yes"`, `"on"`. -/
def _build_config (env : Env) : BuildResult :=
  match env.username with
  | none => .keyError "USERNAME"
  | some username =>
    match env.hostname with
    | none => .keyError "HOSTNAME"
    | some hostname =>
      match env.cpanel_api_token with
      | none => .keyError "CPANEL_API_TOKEN"
      | some api_token =>
        let port : Int :=
          match env.port with
          | none => 2083
          | some p =>
            match pyInt p with
            | some n => n
            | none => 2083
        let ssl : Bool :=
          match env.ssl with
          | none => true
          | some s => ["true", "1", "yes", "on"].contains s.toLower
        .ok { hostname, username, api_token, port, ssl }

/-- Whether `_build_config` produced a config (no exception raised). -/
def BuildResult.isOk : BuildResult → Bool
  | .ok _ => true
  | .keyError _ => false

/-- The port of the produced config, when one was produced. -/
def BuildResult.portOf : BuildResult → Option Int
  | .ok c => some c.port
  | .keyError _ => none

/-- The attributes `__init__` (server.py lines 33-45) sets on the bridge:
`_config`, `_base_url` built as `{protocol}://{hostname}:{port}` with
protocol `https` when `ssl` else `http`, and `_headers` with the
`Authorization: cpanel {username}:{api_token}` and `Content-Type` entries. -/
structure BridgeFields where
  config : CpanelConfig
  base_url : String
  headers : List (String × String)
deriving DecidableEq, Repr

/-- `__init__` (server.py lines 33-45) as a function of the environment:
builds the config (propagating its `KeyError` as `.error`), then derives
the base URL and headers. -/
def initFields (env : Env) : Except String BridgeFields :=
  match _build_config env with
  | .keyError k => .error k
  | .ok config =>
    let protocol := if config.ssl then "https" else "http"
    .ok
      { config
        base_url := protocol ++ "://" ++ config.hostname ++ ":" ++ toString config.port
        headers :=
          [("Authorization", "cpanel " ++ config.username ++ ":" ++ config.api_token),
           ("Content-Type", "application/json")] }

/-- A `CpanelAPI` object: a Python identity (`id`) plus the attributes set
by `__init__` (`none` while the object has not been initialised yet). -/
structure PyObject where
  id : Nat
  fields : Option BridgeFields
deriving DecidableEq, Repr

/-- `__new__` (server.py lines 28-31): `if not cls._singleton` — a
`CpanelAPI` object is always truthy, so this tests `None`-ness; when the
singleton slot is empty a fresh object (identity `fresh`) is allocated and
stored, otherwise the stored object is returned. Returns the object
`__new__` hands to `__init__` and the updated singleton slot. -/
def CpanelAPI_new (st : Option PyObject) (fresh : Nat) : PyObject × Option PyObject :=
  match st with
  | some obj => (obj, some obj)
  | none =>
    let obj : PyObject := { id := fresh, fields := none }
    (obj, some obj)

/-- Outcome of evaluating `CpanelAPI()`: the returned object and the
singleton slot afterwards, or the exception key when `__init__` raised
(the slot still holds the object `__new__` stored). -/
inductive ConstructOutcome where
  | ok (obj : PyObject) (st : Option PyObject)
  | raised (key : String) (st : Option PyObject)
deriving DecidableEq, Repr

/-- `CpanelAPI()` in Python: `type.__call__` runs `__new__` and then always
runs `__init__` on the resulting object — also when `__new__` returned the
cached singleton — so `__init__` (server.py lines 33-45) rebuilds
`_config`, `_base_url` and `_headers` from the current environment on
every construction. -/
def CpanelAPI_construct (st : Option PyObject) (fresh : Nat) (env : Env) :
    ConstructOutcome :=
  let (obj, st1) := CpanelAPI_new st fresh
  match initFields env with
  | .ok b => .ok { obj with fields := some b } (some { obj with fields := some b })
  | .error k => .raised k st1

/-- A JSON value, as decoded from a response body. -/
inductive Json where
  | str (s : String)
  | num (n : Int)
  | bool (b : Bool)
  | null
  | arr (xs : List Json)
  | obj (fields : List (String × Json))

/-- The error mapping shape `{"error": msg}` that `make_call` returns on
every failure path (server.py lines 109-116). -/
def errObj (msg : String) : Json :=
  Json.obj [("error", Json.str msg)]

/-- What the network interaction inside `make_call`'s `try` block can
encounter: a response arrives with a status code and a body that either
decodes to JSON or does not, or `self._client.get` raises an
`httpx.RequestError`, or some other `Exception` is raised. -/
inductive HttpOutcome where
  | response (statusCode : Nat) (body : Option Json)
  | requestError (details : String)
  | otherError (details : String)

/-- httpx `Response.is_success`: status code in 200-299.
`Response.raise_for_status` raises `httpx.HTTPStatusError` exactly when
the response is not a success. -/
def is_success (statusCode : Nat) : Bool :=
  200 ≤ statusCode && statusCode ≤ 299

/-- The exceptions caught by `make_call`'s `except` clauses
(server.py lines 109-116), in the classes the code distinguishes. -/
inductive PyExc where
  | httpStatusError (statusCode : Nat)
  | requestError (details : String)
  | valueError
  | otherExc (details : String)

/-- The `try` block of `make_call` (server.py lines 103-108):
`self._client.get` (propagating transport and unexpected failures),
then `response.raise_for_status()` (raising `HTTPStatusError` on a
non-success status), then `response.json()` (raising a `ValueError`
when the body does not decode). -/
def make_call_try (o : HttpOutcome) : Except PyExc Json :=
  match o with
  | .requestError d => .error (.requestError d)
  | .otherError d => .error (.otherExc d)
  | .response code body =>
    if is_success code then
      match body with
      | some j => .ok j
      | none => .error .valueError
    else .error (.httpStatusError code)

/-- `make_call` (server.py lines 81-116): returns the decoded JSON body on
success and converts each caught exception to an `{"error": ...}` mapping
per its class. -/
def make_call (o : HttpOutcome) : Json :=
  match make_call_try o with
  | .ok j => j
  | .error (.httpStatusError code) => errObj ("HTTP " ++ toString code)
  | .error (.requestError d) => errObj ("Request failed: " ++ d)
  | .error .valueError => errObj "Invalid JSON response from cPanel API."
  | .error (.otherExc d) => errObj ("Unknown error occurred: " ++ d)

/-- A value of the `Params` alias (server.py line 10): `str | int`. -/
inductive ParamValue where
  | s (v : String)
  | i (v : Int)
deriving DecidableEq, Repr

/-- The request a tool hands to `self._api.make_call`: the UAPI module,
the function, and the derived parameter mapping. -/
structure ApiRequest where
  module : String
  function : String
  params : List (String × ParamValue)
deriving DecidableEq, Repr

/-- The uncaught `IndexError` name `split_email` raises on an `@`-less
input, as the `.error` payload of a tool that propagates it. -/
def indexError : String := "IndexError"

/-- `add_email_account` (server.py lines 133-156): splits the email (an
`IndexError` from the split propagates uncaught), then calls
`Email/add_pop` with `domain`, `email` (the local part), `password`,
`quota`. -/
def add_email_account (email password : String) (quota : Int) :
    Except String ApiRequest :=
  match split_email email with
  | none => .error indexError
  | some (username, domain) =>
    .ok ⟨"Email", "add_pop",
      [("domain", .s domain), ("email", .s username),
       ("password", .s password), ("quota", .i quota)]⟩

/-- `delete_email_account` (server.py lines 158-175): splits the email,
then calls `Email/delete_pop` with `domain` and `email` (the local part). -/
def delete_email_account (email : String) : Except String ApiRequest :=
  match split_email email with
  | none => .error indexError
  | some (username, domain) =>
    .ok ⟨"Email", "delete_pop", [("domain", .s domain), ("email", .s username)]⟩

/-- `list_email_accounts` (server.py lines 177-191): calls
`Email/list_pops` with `domain`. -/
def list_email_accounts (domain : String) : Except String ApiRequest :=
  .ok ⟨"Email", "list_pops", [("domain", .s domain)]⟩

/-- `get_email_settings` (server.py lines 193-205): calls
`Email/get_client_settings` with the full email under `email`; it never
calls `split_email`. -/
def get_email_settings (email : String) : Except String ApiRequest :=
  .ok ⟨"Email", "get_client_settings", [("email", .s email)]⟩

/-- `update_quota` (server.py lines 207-222): splits the email, then calls
`Email/edit_pop_quota` with `email` (the local part), `domain`, `quota`. -/
def update_quota (email : String) (quota : Int) : Except String ApiRequest :=
  match split_email email with
  | none => .error indexError
  | some (username, domain) =>
    .ok ⟨"Email", "edit_pop_quota",
      [("email", .s username), ("domain", .s domain), ("quota", .i quota)]⟩

/-- `change_password` (server.py lines 224-243): splits the email, then
calls `Email/passwd_pop` with `email` (the local part), `domain`,
`password`. -/
def change_password (email new_password : String) : Except String ApiRequest :=
  match split_email email with
  | none => .error indexError
  | some (username, domain) =>
    .ok ⟨"Email", "passwd_pop",
      [("email", .s username), ("domain", .s domain), ("password", .s new_password)]⟩

/-- `create_email_forwarder` (server.py lines 245-267): splits the email,
then calls `Email/add_forwarder` with `email` (the local part), `domain`,
`fwdopt = "fwd"`, `fwdemail = destination`. -/
def create_email_forwarder (email destination : String) :
    Except String ApiRequest :=
  match split_email email with
  | none => .error indexError
  | some (username, domain) =>
    .ok ⟨"Email", "add_forwarder",
      [("email", .s username), ("domain", .s domain),
       ("fwdopt", .s "fwd"), ("fwdemail", .s destination)]⟩

/-- `delete_email_forwarder` (server.py lines 269-284): calls
`Email/delete_forwarder` with the full email under `address` and the
destination under `forwarder`; it never calls `split_email`. -/
def delete_email_forwarder (email destination : String) :
    Except String ApiRequest :=
  .ok ⟨"Email", "delete_forwarder",
    [("address", .s email), ("forwarder", .s destination)]⟩

/-- `list_email_forwarders` (server.py lines 286-299): calls
`Email/list_forwarders` with `domain`. -/
def list_email_forwarders (domain : String) : Except String ApiRequest :=
  .ok ⟨"Email", "list_forwarders", [("domain", .s domain)]⟩

/-- Environment with required values only and all of them empty strings. -/
def env_empty_required : Env := ⟨some "", some "", some "", none, none⟩

/-- First environment of the singleton scenario: hostname `a.example.com`. -/
def envHostA : Env := ⟨some "cpuser", some "a.example.com", some "tok", none, none⟩

/-- Second environment of the singleton scenario: the hostname variable has
been changed to `b.example.com` after the first construction. -/
def envHostB : Env := ⟨some "cpuser", some "b.example.com", some "tok", none, none⟩

/-- First `CpanelAPI()` evaluation of the singleton scenario: empty
singleton slot, fresh identity 0, environment `envHostA`. -/
def firstConstruct : ConstructOutcome := CpanelAPI_construct none 0 envHostA

/-- The singleton slot after the first construction. -/
def stateAfterFirst : Option PyObject :=
  match firstConstruct with
  | .ok _ st => st
  | .raised _ st => st

/-- Second `CpanelAPI()` evaluation: the environment has changed to
`envHostB`; a fresh identity 1 would be used were the slot empty. -/
def secondConstruct : ConstructOutcome := CpanelAPI_construct stateAfterFirst 1 envHostB

/-- The identity of the object a construction returned. -/
def outcomeId : ConstructOutcome → Option Nat
  | .ok obj _ => some obj.id
  | .raised _ _ => none

/-- The configured hostname of the object a construction returned. -/
def outcomeHostname : ConstructOutcome → Option String
  | .ok obj _ => obj.fields.map (fun b => b.config.hostname)
  | .raised _ _ => none

/-- The bridge fields derived from `envHostB`. -/
def bridgeHostB : BridgeFields :=
  { config := { hostname := "b.example.com", username := "cpuser", api_token := "tok" }
    base_url := "https://b.example.com:2083"
    headers := [("Authorization", "cpanel cpuser:tok"), ("Content-Type", "application/json")] }

/-- The bridge fields derived from the default documentation environment
`HOSTNAME=cpanel.example.com USERNAME=cpuser CPANEL_API_TOKEN=tok123`
with no `PORT` or `SSL`. -/
def bridgeDefault : BridgeFields :=
  { config := { hostname := "cpanel.example.com", username := "cpuser", api_token := "tok123" }
    base_url := "https://cpanel.example.com:2083"
    headers := [("Authorization", "cpanel cpuser:tok123"), ("Content-Type", "application/json")] }

/-! ## Helper lemmas about the splitting model -/

theorem pySplit_ne_nil (sep : Char) (s : List Char) : pySplit sep s ≠ [] := by
  cases s with
  | nil => simp [pySplit]
  | cons x xs =>
    simp only [pySplit]
    cases pySplit sep xs with
    | nil => simp
    | cons r rs =>
      by_cases h : x = sep <;> simp [h]

theorem pySplit_head (sep : Char) (s : List Char) :
    ∃ rs, pySplit sep s = (s.takeWhile (fun c => c != sep)) :: rs := by
  induction s with
  | nil => exact ⟨[], rfl⟩
  | cons x xs ih =>
    obtain ⟨rs, hrs⟩ := ih
    by_cases h : x = sep
    · refine ⟨pySplit sep xs, ?_⟩
      simp [pySplit, hrs, h, List.takeWhile_cons]
    · refine ⟨rs, ?_⟩
      simp [pySplit, hrs, h, List.takeWhile_cons, bne_iff_ne]

theorem pySplit_no_sep (sep : Char) (s : List Char) (h : sep ∉ s) :
    pySplit sep s = [s] := by
  induction s with
  | nil => rfl
  | cons x xs ih =>
    have hx : x ≠ sep := fun hx => h (hx ▸ List.mem_cons_self x xs)
    have hxs : sep ∉ xs := fun hm => h (List.mem_cons_of_mem x hm)
    simp [pySplit, ih hxs, hx]

theorem pySplit_append (sep : Char) (l rest : List Char) (h : sep ∉ l) :
    pySplit sep (l ++ sep :: rest) = l :: pySplit sep rest := by
  induction l with
  | nil =>
    obtain ⟨r, rs, hr⟩ : ∃ r rs, pySplit sep rest = r :: rs := by
      cases hps : pySplit sep rest with
      | nil => exact absurd hps (pySplit_ne_nil sep rest)
      | cons r rs => exact ⟨r, rs, rfl⟩
    simp [pySplit, hr]
  | cons x xs ih =>
    have hx : x ≠ sep := fun hx => h (hx ▸ List.mem_cons_self x xs)
    have hxs : sep ∉ xs := fun hm => h (List.mem_cons_of_mem x hm)
    simp [pySplit, ih hxs, hx]

theorem first_at_decomp (s : List Char) (h : '@' ∈ s) :
    s = s.takeWhile (fun c => c != '@') ++ '@' :: (s.dropWhile (fun c => c != '@')).tail ∧
      '@' ∉ s.takeWhile (fun c => c != '@') := by
  induction s with
  | nil => cases h
  | cons x xs ih =>
    by_cases hx : x = '@'
    · subst hx
      simp [List.takeWhile_cons, List.dropWhile_cons]
    · have hxs : '@' ∈ xs := by
        cases List.mem_cons.mp h with
        | inl h1 => exact absurd h1.symm hx
        | inr h2 => exact h2
      obtain ⟨h1, h2⟩ := ih hxs
      constructor
      · conv_lhs => rw [h1]
        simp [List.takeWhile_cons, List.dropWhile_cons, hx, bne_iff_ne]
      · intro hmem
        rw [List.takeWhile_cons] at hmem
        simp only [bne_iff_ne, ne_eq, hx, not_false_eq_true, if_true, ite_true] at hmem
        cases List.mem_cons.mp hmem with
        | inl h3 => exact hx h3.symm
        | inr h4 => exact h2 h4

theorem split_email_prefix_at (s : String) (l d : List Char)
    (hs : s.data = l ++ '@' :: d) (hl : '@' ∉ l) :
    split_email s =
      some (String.mk l, String.mk (d.takeWhile (fun c => c != '@'))) := by
  obtain ⟨rs, hrs⟩ := pySplit_head '@' d
  simp only [split_email, hs, pySplit_append '@' l d hl, hrs]
  rfl

/-! ## Claim theorems -/

/-- Claim C9: for every email of the form `local@domain` containing exactly
one `@` — that is, `s.data = l ++ '@' :: d` with `@` in neither `l` nor
`d` — `split_email` returns exactly `(local, domain)`. -/
theorem split_email_single_at (s : String) (l d : List Char)
    (hs : s.data = l ++ '@' :: d) (hl : '@' ∉ l) (hd : '@' ∉ d) :
    split_email s = some (String.mk l, String.mk d) := by
  simp only [split_email, hs, pySplit_append '@' l d hl, pySplit_no_sep '@' d hd]
  rfl

/-- Witness for `split_email_single_at` at `a.b@sub.dom.co.uk`. -/
theorem split_email_single_at_witness :
    split_email "a.b@sub.dom.co.uk" = some ("a.b", "sub.dom.co.uk") :=
  split_email_single_at "a.b@sub.dom.co.uk" "a.b".data "sub.dom.co.uk".data (by decide)
    (by decide) (by decide)

/-- Claim C10: every email containing at least one `@` splits without
error; the local component is everything before the first `@` and the
domain component is the segment following it (possibly empty, as in
`local@` and `@domain`). -/
theorem split_email_of_mem_at (s : String) (h : '@' ∈ s.data) :
    split_email s =
      some (String.mk (s.data.takeWhile (fun c => c != '@')),
        String.mk (((s.data.dropWhile (fun c => c != '@')).tail).takeWhile
          (fun c => c != '@'))) := by
  obtain ⟨h1, h2⟩ := first_at_decomp s.data h
  exact split_email_prefix_at s _ _ h1 h2

/-- Witness for `split_email_of_mem_at` at `local@` and `@domain`: the
empty-component cases the claim names. -/
theorem split_email_of_mem_at_witness :
    split_email "local@" = some ("local", "") ∧
      split_email "@domain" = some ("", "domain") :=
  ⟨split_email_of_mem_at "local@" (by decide),
   split_email_of_mem_at "@domain" (by decide)⟩

/-- Claim C1 is false on the code: `email.split("@")` severs the string at
every `@`, so for `a@b@c` the domain component is `b`, not the full
remainder `b@c` the claim states. -/
theorem split_email_multi_at_counterexample :
    split_email "a@b@c" ≠ some ("a", "b@c") := by decide

/-- Claim C1 amended: for every email containing two or more `@`, the
domain component is the segment strictly between the first and the second
`@`; everything from the second `@` on is dropped. -/
theorem split_email_multi_at (s : String) (l m r : List Char)
    (hs : s.data = l ++ '@' :: (m ++ '@' :: r)) (hl : '@' ∉ l) (hm : '@' ∉ m) :
    split_email s = some (String.mk l, String.mk m) := by
  simp only [split_email, hs, pySplit_append '@' l _ hl, pySplit_append '@' m r hm]
  rfl

/-- Witness for `split_email_multi_at` at `a@b@c`. -/
theorem split_email_multi_at_witness :
    split_email "a@b@c" = some ("a", "b") :=
  split_email_multi_at "a@b@c" "a".data "b".data "c".data (by decide) (by decide)
    (by decide)

/-- Claim C5: on an email with no `@`, `split_email` hits an uncaught
`IndexError` (modelled as `none`), and every tool operation that splits
propagates it unchanged — the tool result is the raised error, not an
`ok` request, so no `{"error": ...}` mapping can be produced for this
input. -/
theorem split_email_no_at_propagates (s pw dest : String) (quota : Int)
    (h : '@' ∉ s.data) :
    split_email s = none ∧
      add_email_account s pw quota = .error indexError ∧
      delete_email_account s = .error indexError ∧
      update_quota s quota = .error indexError ∧
      change_password s pw = .error indexError ∧
      create_email_forwarder s dest = .error indexError := by
  have hn : split_email s = none := by
    simp only [split_email, pySplit_no_sep '@' s.data h]
    rfl
  exact ⟨hn, by simp [add_email_account, hn], by simp [delete_email_account, hn],
    by simp [update_quota, hn], by simp [change_password, hn],
    by simp [create_email_forwarder, hn]⟩

/-- Witness for `split_email_no_at_propagates` at `nodomain`. -/
theorem split_email_no_at_propagates_witness :
    split_email "nodomain" = none ∧
      add_email_account "nodomain" "pw" 0 = .error indexError ∧
      delete_email_account "nodomain" = .error indexError ∧
      update_quota "nodomain" 0 = .error indexError ∧
      change_password "nodomain" "pw" = .error indexError ∧
      create_email_forwarder "nodomain" "dest@x.com" = .error indexError :=
  split_email_no_at_propagates "nodomain" "pw" "dest@x.com" 0 (by decide)

/-- Claim C4: `make_call` maps every outcome to a returned value rather
than an exception: the decoded body on a success response, and otherwise
the single-key `{"error": ...}` mapping whose message is fixed by the
failure class; the five cases below are exhaustive over `HttpOutcome`.
A non-success status yields its error for every body, decodable or not. -/
theorem make_call_error_shape (o : HttpOutcome) :
    (∀ code j, o = .response code (some j) → is_success code = true →
        make_call o = j) ∧
      (∀ code body, o = .response code body → is_success code = false →
        make_call o = errObj ("HTTP " ++ toString code)) ∧
      (∀ code, o = .response code none → is_success code = true →
        make_call o = errObj "Invalid JSON response from cPanel API.") ∧
      (∀ d, o = .requestError d → make_call o = errObj ("Request failed: " ++ d)) ∧
      (∀ d, o = .otherError d → make_call o = errObj ("Unknown error occurred: " ++ d)) := by
  refine ⟨?_, ?_, ?_, ?_, ?_⟩
  · rintro code j rfl hcode
    simp [make_call, make_call_try, hcode]
  · rintro code body rfl hcode
    simp [make_call, make_call_try, hcode]
  · rintro code rfl hcode
    simp [make_call, make_call_try, hcode]
  · rintro d rfl
    simp [make_call, make_call_try]
  · rintro d rfl
    simp [make_call, make_call_try]

/-- Witness for `make_call_error_shape`: the transport failure
`Network is unreachable` and an HTTP 500 response. -/
theorem make_call_error_shape_witness :
    make_call (.requestError "Network is unreachable") =
        errObj "Request failed: Network is unreachable" ∧
      make_call (.response 500 (some Json.null)) = errObj "HTTP 500" :=
  ⟨(make_call_error_shape (.requestError "Network is unreachable")).2.2.2.1
      "Network is unreachable" rfl,
   (make_call_error_shape (.response 500 (some Json.null))).2.1 500 (some Json.null)
      rfl (by decide)⟩

/-- Claim C2 is false on the code: the required fields are not validated
for emptiness — with `USERNAME`, `HOSTNAME` and `CPANEL_API_TOKEN` all set
to the empty string, `_build_config` succeeds and returns a config, where
the claim requires a configuration error. -/
theorem build_config_empty_strings_ok :
    _build_config env_empty_required =
      .ok { hostname := "", username := "", api_token := "", port := 2083, ssl := true } :=
  rfl

/-- Claim C2 amended: a missing required variable fails fast with a
`KeyError` naming only the first missing one, checked in the order
`USERNAME`, `HOSTNAME`, `CPANEL_API_TOKEN`; whenever all three are set the
construction succeeds, empty strings included. -/
theorem build_config_fail_fast (env : Env) :
    (env.username = none → _build_config env = .keyError "USERNAME") ∧
      (∀ u, env.username = some u → env.hostname = none →
        _build_config env = .keyError "HOSTNAME") ∧
      (∀ u hn, env.username = some u → env.hostname = some hn →
        env.cpanel_api_token = none → _build_config env = .keyError "CPANEL_API_TOKEN") ∧
      (∀ u hn t, env.username = some u → env.hostname = some hn →
        env.cpanel_api_token = some t →
          ∃ c, _build_config env = .ok c ∧ c.hostname = hn ∧ c.username = u ∧
            c.api_token = t) := by
  refine ⟨?_, ?_, ?_, ?_⟩
  · intro h1
    simp [_build_config, h1]
  · intro u h1 h2
    simp [_build_config, h1, h2]
  · intro u hn h1 h2 h3
    simp [_build_config, h1, h2, h3]
  · intro u hn t h1 h2 h3
    simp only [_build_config, h1, h2, h3]
    exact ⟨_, rfl, rfl, rfl, rfl⟩

/-- Witness for `build_config_fail_fast`: `USERNAME` unset while the other
required variables are set. -/
theorem build_config_fail_fast_witness :
    _build_config ⟨none, some "cpanel.example.com", some "tok123", none, none⟩ =
      .keyError "USERNAME" :=
  (build_config_fail_fast ⟨none, some "cpanel.example.com", some "tok123", none, none⟩).1
    rfl

/-- Claim C3 is false on the code: the second construction returns the
cached instance (same identity 0) but `__init__` re-runs, so after the
`HOSTNAME` variable changes from `a.example.com` to `b.example.com` the
same cached object carries the new hostname — the configuration is not
written at most once and environment changes do take effect. -/
theorem singleton_env_change_counterexample :
    outcomeId firstConstruct = some 0 ∧
      outcomeId secondConstruct = some 0 ∧
      outcomeHostname firstConstruct = some "a.example.com" ∧
      outcomeHostname secondConstruct = some "b.example.com" :=
  ⟨rfl, rfl, rfl, rfl⟩

/-- Claim C3 amended: every construction after the first returns the
identical cached instance (the identity is preserved and the fresh
identity is unused), but its configuration, base URL and headers are
rebuilt by `__init__` from the current environment on each construction,
so later environment changes do affect them. -/
theorem construct_returns_cached_but_reinitializes (obj : PyObject) (fresh : Nat)
    (env : Env) (b : BridgeFields) (h : initFields env = .ok b) :
    CpanelAPI_construct (some obj) fresh env =
      .ok { id := obj.id, fields := some b } (some { id := obj.id, fields := some b }) := by
  simp [CpanelAPI_construct, CpanelAPI_new, h]

/-- Witness for `construct_returns_cached_but_reinitializes`: a cached
instance with identity 0 reconstructed under `envHostB`. -/
theorem construct_returns_cached_but_reinitializes_witness :
    CpanelAPI_construct (some ⟨0, none⟩) 1 envHostB =
      .ok ⟨0, some bridgeHostB⟩ (some ⟨0, some bridgeHostB⟩) :=
  construct_returns_cached_but_reinitializes ⟨0, none⟩ 1 envHostB bridgeHostB rfl

/-- Claim C6: with the required values set, the bridge's base URL is
`{scheme}://{hostname}:{port}` with scheme `https` exactly when `ssl`
holds, the headers carry `Authorization: cpanel {username}:{api_token}`,
missing `SSL`/`PORT` default to `https` and 2083, and an `SSL` string
counts as true iff its lowercase form is `true`, `1`, `yes` or `on`. -/
theorem bridge_url_and_headers (u hn t : String) (port ssl : Option String)
    (b : BridgeFields)
    (h : initFields ⟨some u, some hn, some t, port, ssl⟩ = .ok b) :
    b.base_url = (if b.config.ssl then "https" else "http") ++ "://" ++ hn ++ ":" ++
        toString b.config.port ∧
      b.headers = [("Authorization", "cpanel " ++ u ++ ":" ++ t),
        ("Content-Type", "application/json")] ∧
      (ssl = none → b.config.ssl = true) ∧
      (port = none → b.config.port = 2083) ∧
      (∀ sv, ssl = some sv → (b.config.ssl = true ↔
        sv.toLower ∈ (["true", "1", "yes", "on"] : List String))) := by
  simp only [initFields, _build_config, Except.ok.injEq] at h
  subst h
  refine ⟨rfl, rfl, ?_, ?_, ?_⟩
  · rintro rfl
    rfl
  · rintro rfl
    rfl
  · rintro sv rfl
    simp

/-- Witness for `bridge_url_and_headers`: the default documentation
environment, no `PORT` or `SSL`. -/
theorem bridge_url_and_headers_witness :
    bridgeDefault.base_url =
        (if bridgeDefault.config.ssl then "https" else "http") ++ "://" ++
          "cpanel.example.com" ++ ":" ++ toString bridgeDefault.config.port ∧
      bridgeDefault.headers = [("Authorization", "cpanel cpuser:tok123"),
        ("Content-Type", "application/json")] ∧
      bridgeDefault.config.ssl = true ∧
      bridgeDefault.config.port = 2083 :=
  ⟨(bridge_url_and_headers "cpuser" "cpanel.example.com" "tok123" none none
      bridgeDefault rfl).1,
   (bridge_url_and_headers "cpuser" "cpanel.example.com" "tok123" none none
      bridgeDefault rfl).2.1,
   (bridge_url_and_headers "cpuser" "cpanel.example.com" "tok123" none none
      bridgeDefault rfl).2.2.1 rfl,
   (bridge_url_and_headers "cpuser" "cpanel.example.com" "tok123" none none
      bridgeDefault rfl).2.2.2.1 rfl⟩

/-- Claim C7: with the required variables set, a missing `PORT` leaves the
default 2083, and a `PORT` whose `int()` parse fails is silently discarded
in favour of 2083 — construction still succeeds. -/
theorem port_defaults (env : Env) (u hn t : String)
    (hu : env.username = some u) (hh : env.hostname = some hn)
    (ht : env.cpanel_api_token = some t)
    (hp : env.port = none ∨ ∃ p, env.port = some p ∧ pyInt p = none) :
    (_build_config env).isOk = true ∧ (_build_config env).portOf = some 2083 := by
  rcases hp with hp | ⟨p, hp, hparse⟩
  · simp [_build_config, hu, hh, ht, hp, BuildResult.isOk, BuildResult.portOf]
  · simp [_build_config, hu, hh, ht, hp, hparse, BuildResult.isOk, BuildResult.portOf]

/-- Witness for `port_defaults`: `PORT` set to the unparsable `26f5`. -/
theorem port_defaults_witness :
    (_build_config ⟨some "cpuser", some "cpanel.example.com", some "tok123",
        some "26f5", none⟩).isOk = true ∧
      (_build_config ⟨some "cpuser", some "cpanel.example.com", some "tok123",
        some "26f5", none⟩).portOf = some 2083 :=
  port_defaults ⟨some "cpuser", some "cpanel.example.com", some "tok123",
      some "26f5", none⟩ "cpuser" "cpanel.example.com" "tok123" rfl rfl rfl
    (Or.inr ⟨"26f5", rfl, by decide⟩)

/-- Claim C8: `get_email_settings` and `delete_email_forwarder` send the
primary email whole — `Email/get_client_settings` with `{email: address}`
and `Email/delete_forwarder` with `{address, forwarder}` — for every input
string, `@`-less ones included, which a `split_email` call would reject;
neither invokes the splitting helper. -/
theorem unsplit_email_ops (email destination : String) :
    get_email_settings email =
        .ok ⟨"Email", "get_client_settings", [("email", .s email)]⟩ ∧
      delete_email_forwarder email destination =
        .ok ⟨"Email", "delete_forwarder",
          [("address", .s email), ("forwarder", .s destination)]⟩ :=
  ⟨rfl, rfl⟩

end Cpanel
